import Mathlib

/-!
Verification development for the analytics-assistant chat bot (`bot.py`).

The Python source is shallowly embedded: SQLite tables become Lean lists of
row structures with an explicit autoincrement counter, the wall clock and the
HTTP client are passed in as explicit arguments, pandas dataframes become a
structure of a column list and a row list, and Python exceptions become
`Except` values.
-/

namespace Bot

/-! ## HTML escaping (`html.escape`, used throughout the handlers) -/

/-- Per-character translation of Python's `html.escape(s, quote=True)`:
`&` to `&amp;`, `<` to `&lt;`, `>` to `&gt;`, `"` to `&quot;`, `'` to `&#x27;`.
The sequential `str.replace` passes of the CPython implementation agree with
this character-wise map because no replacement output contains a character
that a later pass rewrites out of place. -/
def escapeChar (c : Char) : List Char :=
  if c = '&' then ['&', 'a', 'm', 'p', ';']
  else if c = '<' then ['&', 'l', 't', ';']
  else if c = '>' then ['&', 'g', 't', ';']
  else if c = '\"' then ['&', 'q', 'u', 'o', 't', ';']
  else if c = '\'' then ['&', '#', 'x', '2', '7', ';']
  else [c]

/-- Embedding of `html.escape` as used by `bot.py` (always with `quote=True`,
the default). -/
def pyEscape (s : String) : String :=
  ⟨s.data.flatMap escapeChar⟩

/-- Does the character list start with the tail of one of the five entities
that `html.escape` emits (the part after the `&`)? -/
def isEntityTail (l : List Char) : Bool :=
  (l.take 4 == ['a', 'm', 'p', ';']) || (l.take 3 == ['l', 't', ';']) ||
  (l.take 3 == ['g', 't', ';']) || (l.take 5 == ['q', 'u', 'o', 't', ';']) ||
  (l.take 5 == ['#', 'x', '2', '7', ';'])

/-- A character list is free of unescaped HTML-special characters: it contains
no raw `<` or `>`, and every `&` starts one of the five entities that
`html.escape` emits. -/
def noUnescaped : List Char → Bool
  | [] => true
  | c :: rest =>
    if c = '<' then false
    else if c = '>' then false
    else if c = '&' then isEntityTail rest && noUnescaped rest
    else noUnescaped rest

theorem noUnescaped_cons_safe (c : Char) (l : List Char)
    (h1 : c ≠ '<') (h2 : c ≠ '>') (h3 : c ≠ '&') :
    noUnescaped (c :: l) = noUnescaped l := by
  simp only [noUnescaped, if_neg h1, if_neg h2, if_neg h3]

theorem noUnescaped_escapeChar_append (c : Char) (l : List Char)
    (h : noUnescaped l = true) : noUnescaped (escapeChar c ++ l) = true := by
  by_cases h1 : c = '&'
  · subst h1; exact h
  · by_cases h2 : c = '<'
    · subst h2; exact h
    · by_cases h3 : c = '>'
      · subst h3; exact h
      · by_cases h4 : c = '\"'
        · subst h4; exact h
        · by_cases h5 : c = '\''
          · subst h5; exact h
          · have he : escapeChar c = [c] := by
              simp [escapeChar, h1, h2, h3, h4, h5]
            rw [he, List.singleton_append, noUnescaped_cons_safe c l h2 h3 h1]
            exact h

theorem noUnescaped_escape_append (cs : List Char) (l : List Char)
    (h : noUnescaped l = true) :
    noUnescaped (cs.flatMap escapeChar ++ l) = true := by
  induction cs with
  | nil => simpa using h
  | cons c cs ih =>
    rw [List.flatMap_cons, List.append_assoc]
    exact noUnescaped_escapeChar_append c _ (ih)

theorem noUnescaped_pyEscape (s : String) : noUnescaped (pyEscape s).data = true := by
  have := noUnescaped_escape_append s.data [] rfl
  simpa [pyEscape] using this

/-! ## Schema manager (`ensure_tables_and_columns`)

A SQLite table is a list of column names together with the stored rows; a row
is one `Option String` cell per column (`none` is SQL NULL).  `ALTER TABLE t
ADD COLUMN c` appends the column name and a NULL cell to every existing row.
The database schema holds the three tables, each `none` while absent. -/

structure Table where
  cols : List String
  rows : List (List (Option String))
deriving DecidableEq

/-- Effect of `ALTER TABLE _ ADD COLUMN c TEXT` on the table. -/
def addColumn (t : Table) (c : String) : Table :=
  ⟨t.cols ++ [c], t.rows.map (fun r => r ++ [none])⟩

/-- The per-table loop of `ensure_tables_and_columns` over a pre-existing
table: for each checked column, `column_exists` then `ALTER TABLE ADD COLUMN`
when absent. -/
def ensureCols (t : Table) : List String → Table
  | [] => t
  | c :: cs => ensureCols (if t.cols.contains c then t else addColumn t c) cs

/-- `CREATE TABLE` with the given column set (a fresh table has no rows). -/
def createTable (cols : List String) : Table := ⟨cols, []⟩

structure Schema where
  users : Option Table
  queries : Option Table
  presets : Option Table
deriving DecidableEq

/-- Column set of `CREATE TABLE users` in `ensure_tables_and_columns`. -/
def usersCreateCols : List String := ["user_id", "username", "fullname", "reg_date"]

/-- Columns that `ensure_tables_and_columns` checks on a pre-existing
`users` table. -/
def usersCheckedCols : List String := ["fullname", "reg_date"]

/-- Column set of `CREATE TABLE queries`. -/
def queriesCreateCols : List String := ["id", "user_id", "text", "source", "params", "ts"]

/-- Columns checked on a pre-existing `queries` table. -/
def queriesCheckedCols : List String := ["source", "params", "ts"]

/-- Column set of `CREATE TABLE presets`. -/
def presetsCreateCols : List String := ["id", "user_id", "name", "content", "created_at"]

/-- Columns checked on a pre-existing `presets` table. -/
def presetsCheckedCols : List String := ["content", "created_at"]

/-- One `if not table_exists ... CREATE ... else ...check columns...` block. -/
def ensureOne (t : Option Table) (createCols checked : List String) : Table :=
  match t with
  | none => createTable createCols
  | some t => ensureCols t checked

/-- Embedding of `ensure_tables_and_columns`: run the block for each of the
three tables. -/
def ensure_tables_and_columns (s : Schema) : Schema :=
  ⟨some (ensureOne s.users usersCreateCols usersCheckedCols),
   some (ensureOne s.queries queriesCreateCols queriesCheckedCols),
   some (ensureOne s.presets presetsCreateCols presetsCheckedCols)⟩

/-- Column list of the users table of a schema (empty when absent). -/
def schemaUsersCols (s : Schema) : List String := (s.users.map Table.cols).getD []

/-- Column list of the queries table of a schema (empty when absent). -/
def schemaQueriesCols (s : Schema) : List String := (s.queries.map Table.cols).getD []

theorem ensureCols_cols_append (t : Table) (checked : List String) :
    ∃ d, (ensureCols t checked).cols = t.cols ++ d := by
  induction checked generalizing t with
  | nil => exact ⟨[], by simp [ensureCols]⟩
  | cons c cs ih =>
    by_cases h : t.cols.contains c = true
    · obtain ⟨d, hd⟩ := ih t
      exact ⟨d, by rw [ensureCols, if_pos h]; exact hd⟩
    · obtain ⟨d, hd⟩ := ih (addColumn t c)
      refine ⟨[c] ++ d, ?_⟩
      rw [ensureCols, if_neg h, hd]
      simp [addColumn]

theorem mem_ensureCols_of_mem (t : Table) (checked : List String) (c : String)
    (h : c ∈ t.cols) : c ∈ (ensureCols t checked).cols := by
  obtain ⟨d, hd⟩ := ensureCols_cols_append t checked
  rw [hd]; exact List.mem_append_left _ h

theorem mem_ensureCols_of_checked (t : Table) (checked : List String) (c : String)
    (h : c ∈ checked) : c ∈ (ensureCols t checked).cols := by
  induction checked generalizing t with
  | nil => cases h
  | cons c' cs ih =>
    rcases List.mem_cons.mp h with rfl | hcs
    · by_cases hc : t.cols.contains c = true
      · rw [ensureCols, if_pos hc]
        exact mem_ensureCols_of_mem t cs c (List.elem_iff.mp hc)
      · rw [ensureCols, if_neg hc]
        exact mem_ensureCols_of_mem (addColumn t c) cs c (by simp [addColumn])
    · by_cases hc : t.cols.contains c' = true
      · rw [ensureCols, if_pos hc]; exact ih t hcs
      · rw [ensureCols, if_neg hc]; exact ih (addColumn t c') hcs

theorem ensureCols_eq_self (t : Table) (checked : List String)
    (h : ∀ c ∈ checked, c ∈ t.cols) : ensureCols t checked = t := by
  induction checked with
  | nil => rfl
  | cons c cs ih =>
    have hc : t.cols.contains c = true :=
      List.elem_iff.mpr (h c (List.mem_cons_self c cs))
    rw [ensureCols, if_pos hc]
    exact ih (fun c' hc' => h c' (List.mem_cons_of_mem _ hc'))

theorem ensure_tables_idempotent (s : Schema) :
    ensure_tables_and_columns (ensure_tables_and_columns s) = ensure_tables_and_columns s := by
  have step : ∀ (t : Option Table) (createCols checked : List String),
      (∀ c ∈ checked, c ∈ createCols) →
      ensureOne (some (ensureOne t createCols checked)) createCols checked =
        ensureOne t createCols checked := by
    intro t createCols checked hsub
    cases t with
    | none =>
      exact ensureCols_eq_self _ _ (fun c hc => by
        simpa [createTable] using hsub c hc)
    | some t =>
      exact ensureCols_eq_self _ _ (fun c hc => mem_ensureCols_of_checked t checked c hc)
  have h1 := step s.users usersCreateCols usersCheckedCols (by decide)
  have h2 := step s.queries queriesCreateCols queriesCheckedCols (by decide)
  have h3 := step s.presets presetsCreateCols presetsCheckedCols (by decide)
  simp only [ensure_tables_and_columns, Schema.mk.injEq]
  exact ⟨congrArg some h1, congrArg some h2, congrArg some h3⟩

/-- Column list of the presets table of a schema (empty when absent). -/
def schemaPresetsCols (s : Schema) : List String := (s.presets.map Table.cols).getD []

theorem ensureCols_users_missing_fullname (t : Table)
    (hm : "fullname" ∉ t.cols) (hr : "reg_date" ∈ t.cols) :
    ensureCols t usersCheckedCols =
      ⟨t.cols ++ ["fullname"], t.rows.map (fun r => r ++ [none])⟩ := by
  have h1 : ¬ t.cols.contains "fullname" = true := fun h => hm (List.elem_iff.mp h)
  have h2 : (addColumn t "fullname").cols.contains "reg_date" = true :=
    List.elem_iff.mpr (List.mem_append_left _ hr)
  show ensureCols t ["fullname", "reg_date"] = _
  rw [ensureCols, if_neg h1, ensureCols, if_pos h2]
  rfl

/-! ## Persistence gateway

Each helper opens a connection, runs one statement and closes it; the
database state is threaded explicitly.  `datetime_now()` values are passed in
as explicit `ts` arguments, and `str(params or dict())` is modelled by the
pre-serialized string stored for the row. -/

/-- Stable insertion into a descending-sorted list: `x` goes in front of the
first element not strictly greater than it. -/
def insertGt {α : Type} (gt : α → α → Bool) (x : α) : List α → List α
  | [] => [x]
  | y :: ys => if gt y x then y :: insertGt gt x ys else x :: y :: ys

/-- Stable descending sort (insertion sort); models a SQL `ORDER BY ... DESC`
and the descending order of `pandas.Series.value_counts`. -/
def sortGt {α : Type} (gt : α → α → Bool) : List α → List α
  | [] => []
  | x :: xs => insertGt gt x (sortGt gt xs)

/-- A Telegram user object, as the handlers read it. -/
structure TgUser where
  id : Int
  username : Option String
  first_name : Option String
  last_name : Option String
deriving DecidableEq

/-- A row of the `users` table. -/
structure UserRow where
  user_id : Int
  username : Option String
  fullname : String
  reg_date : String
deriving DecidableEq

/-- Python `" ".join(filter(None, parts))`: `filter(None, ...)` drops `None`
and empty strings. -/
def pyJoinNonEmpty (parts : List (Option String)) : String :=
  " ".intercalate ((parts.filterMap id).filter (fun s => !(s == "")))

/-- Embedding of `register_user`: `SELECT` by `user_id`, and `INSERT` only
when no row was found. -/
def register_user (db : List UserRow) (u : TgUser) (now : String) : List UserRow :=
  if db.any (fun r => r.user_id == u.id) then db
  else db ++ [⟨u.id, u.username, pyJoinNonEmpty [u.first_name, u.last_name], now⟩]

/-- A row of the `queries` table. -/
structure QueryRow where
  id : Nat
  user_id : Int
  text : String
  source : String
  params : String
  ts : String
deriving DecidableEq

/-- The `queries` table with its autoincrement counter. -/
structure QueriesDB where
  nextId : Nat
  rows : List QueryRow
deriving DecidableEq

/-- Embedding of `log_query`: unconditional `INSERT`, returning
`cur.lastrowid` and the new table state.  `params` is the already serialized
`str(params or dict())` blob and `ts` the `datetime_now()` reading. -/
def log_query (db : QueriesDB) (user_id : Int) (text source params ts : String) :
    Nat × QueriesDB :=
  (db.nextId, ⟨db.nextId + 1, db.rows ++ [⟨db.nextId, user_id, text, source, params, ts⟩]⟩)

/-- Embedding of `list_history`: `SELECT text, ts FROM queries WHERE
user_id=? ORDER BY id DESC LIMIT ?`. -/
def list_history (db : QueriesDB) (user_id : Int) (limit : Nat) :
    List (String × String) :=
  ((sortGt (fun a b => decide (b.id < a.id))
      (db.rows.filter (fun r => r.user_id == user_id))).take limit).map
    (fun r => (r.text, r.ts))

/-- A row of the `presets` table. -/
structure PresetRow where
  id : Nat
  user_id : Int
  name : String
  content : String
  created_at : String
deriving DecidableEq

/-- The `presets` table with its autoincrement counter. -/
structure PresetsDB where
  nextId : Nat
  rows : List PresetRow
deriving DecidableEq

/-- Embedding of `add_preset_db`: unconditional `INSERT`. -/
def add_preset_db (db : PresetsDB) (user_id : Int) (name content created_at : String) :
    PresetsDB :=
  ⟨db.nextId + 1, db.rows ++ [⟨db.nextId, user_id, name, content, created_at⟩]⟩

/-- Does a presets row match the `WHERE user_id=? AND name=?` clause? -/
def presetMatches (user_id : Int) (name : String) (r : PresetRow) : Bool :=
  r.user_id == user_id && r.name == name

/-- Embedding of `delete_preset_db`: `DELETE FROM presets WHERE user_id=? AND
name=?` removes every matching row. -/
def delete_preset_db (db : PresetsDB) (user_id : Int) (name : String) : PresetsDB :=
  ⟨db.nextId, db.rows.filter (fun r => !(presetMatches user_id name r))⟩

/-- Embedding of `get_preset_db`: `SELECT content ... fetchone()` returns the
first matching row's content, if any. -/
def get_preset_db (db : PresetsDB) (user_id : Int) (name : String) : Option String :=
  ((db.rows.filter (fun r => presetMatches user_id name r)).head?).map PresetRow.content

/-! ### Lemmas about repeated `log_query` calls -/

/-- The caller-chosen arguments of one `log_query` call. -/
structure QEntry where
  text : String
  source : String
  params : String
  ts : String
deriving DecidableEq

/-- Run `log_query` once per entry, in order. -/
def logMany (db : QueriesDB) (user_id : Int) (es : List QEntry) : QueriesDB :=
  es.foldl (fun d e => (log_query d user_id e.text e.source e.params e.ts).2) db

/-- The rows that a run of `log_query` calls appends, with their assigned
autoincrement ids. -/
def mkRows (start : Nat) (user_id : Int) : List QEntry → List QueryRow
  | [] => []
  | e :: es => ⟨start, user_id, e.text, e.source, e.params, e.ts⟩ :: mkRows (start + 1) user_id es

/-- Well-formedness of the queries table: ids strictly increase along the row
list and stay below the autoincrement counter. -/
def queriesInv (db : QueriesDB) : Prop :=
  db.rows.Pairwise (fun a b => a.id < b.id) ∧ ∀ r ∈ db.rows, r.id < db.nextId

theorem logMany_eq (db : QueriesDB) (user_id : Int) (es : List QEntry) :
    logMany db user_id es =
      ⟨db.nextId + es.length, db.rows ++ mkRows db.nextId user_id es⟩ := by
  induction es generalizing db with
  | nil => simp [logMany, mkRows]
  | cons e es ih =>
    have := ih ⟨db.nextId + 1, db.rows ++ [⟨db.nextId, user_id, e.text, e.source, e.params, e.ts⟩]⟩
    simp only [logMany, List.foldl_cons, log_query] at this ⊢
    rw [this]
    simp [mkRows, Nat.add_assoc, Nat.add_comm 1]

theorem mkRows_length (start : Nat) (user_id : Int) (es : List QEntry) :
    (mkRows start user_id es).length = es.length := by
  induction es generalizing start with
  | nil => rfl
  | cons e es ih => simp [mkRows, ih]

theorem mkRows_id_ge (start : Nat) (user_id : Int) (es : List QEntry) :
    ∀ r ∈ mkRows start user_id es, start ≤ r.id := by
  induction es generalizing start with
  | nil => intro r hr; cases hr
  | cons e es ih =>
    intro r hr
    rcases List.mem_cons.mp hr with rfl | hm
    · exact Nat.le_refl _
    · exact Nat.le_of_succ_le (ih (start + 1) r hm)

theorem mkRows_pairwise (start : Nat) (user_id : Int) (es : List QEntry) :
    (mkRows start user_id es).Pairwise (fun a b => a.id < b.id) := by
  induction es generalizing start with
  | nil => exact List.Pairwise.nil
  | cons e es ih =>
    refine List.pairwise_cons.mpr ⟨?_, ih (start + 1)⟩
    intro r hr
    exact Nat.lt_of_lt_of_le (Nat.lt_succ_self start) (mkRows_id_ge (start + 1) user_id es r hr)

theorem mkRows_user (start : Nat) (user_id : Int) (es : List QEntry) :
    ∀ r ∈ mkRows start user_id es, r.user_id = user_id := by
  induction es generalizing start with
  | nil => intro r hr; cases hr
  | cons e es ih =>
    intro r hr
    rcases List.mem_cons.mp hr with rfl | hm
    · rfl
    · exact ih (start + 1) r hm

theorem mkRows_map_text_ts (start : Nat) (user_id : Int) (es : List QEntry) :
    (mkRows start user_id es).map (fun r => (r.text, r.ts)) =
      es.map (fun e => (e.text, e.ts)) := by
  induction es generalizing start with
  | nil => rfl
  | cons e es ih => simp [mkRows, ih]

theorem insertGt_of_all {α : Type} (gt : α → α → Bool) (x : α) (l : List α)
    (h : ∀ y ∈ l, gt y x = true) : insertGt gt x l = l ++ [x] := by
  induction l with
  | nil => rfl
  | cons y ys ih =>
    rw [insertGt, if_pos (h y (List.mem_cons_self y ys))]
    rw [ih (fun z hz => h z (List.mem_cons_of_mem _ hz))]
    rfl

/-- Sorting an already strictly ascending list in descending order reverses
it. -/
theorem sortGt_of_pairwise {α : Type} (gt : α → α → Bool) (l : List α)
    (h : l.Pairwise (fun a b => gt b a = true)) : sortGt gt l = l.reverse := by
  induction l with
  | nil => rfl
  | cons x xs ih =>
    obtain ⟨hx, hxs⟩ := List.pairwise_cons.mp h
    rw [sortGt, ih hxs,
      insertGt_of_all gt x xs.reverse (fun y hy => hx y (List.mem_reverse.mp hy))]
    simp

theorem list_history_after_logMany (db : QueriesDB) (user_id : Int)
    (es : List QEntry) (hinv : queriesInv db) :
    list_history (logMany db user_id es) user_id es.length =
      (es.map (fun e => (e.text, e.ts))).reverse := by
  rw [logMany_eq]
  set B := mkRows db.nextId user_id es with hB
  have hBfilter : B.filter (fun r => r.user_id == user_id) = B :=
    List.filter_eq_self.mpr (fun r hr => by
      simp [mkRows_user db.nextId user_id es r hr])
  have hpair :
      ((db.rows.filter (fun r => r.user_id == user_id)) ++ B).Pairwise
        (fun a b => a.id < b.id) := by
    refine List.pairwise_append.mpr ⟨List.Pairwise.filter _ hinv.1, mkRows_pairwise _ _ _, ?_⟩
    intro a ha b hb
    exact Nat.lt_of_lt_of_le (hinv.2 a (List.mem_of_mem_filter ha))
      (mkRows_id_ge db.nextId user_id es b hb)
  rw [list_history]
  simp only [List.filter_append, hBfilter]
  rw [sortGt_of_pairwise _ _ (hpair.imp (fun hab => by simpa using hab))]
  rw [List.reverse_append]
  rw [List.take_left' (by rw [List.length_reverse, hB, mkRows_length])]
  rw [List.map_reverse, hB, mkRows_map_text_ts]

/-! ## The `/preset_del` handler -/

/-- The whitespace characters of Python's default `str.split`. -/
def isPySpace (c : Char) : Bool :=
  c == ' ' || c == '\t' || c == '\n' || c == '\x0d' || c == '\x0b' || c == '\x0c'

/-- Python `s.split(maxsplit=1)`: skip leading whitespace, take the first
token, then the remainder with its leading whitespace stripped; an empty or
all-whitespace remainder is dropped. -/
def splitMax1 (s : String) : List String :=
  let l1 := s.data.dropWhile isPySpace
  if l1.isEmpty then []
  else
    let tok := l1.takeWhile (fun c => !(isPySpace c))
    let rest := (l1.dropWhile (fun c => !(isPySpace c))).dropWhile isPySpace
    if rest.isEmpty then [⟨tok⟩] else [⟨tok⟩, ⟨rest⟩]

/-- The confirmation text that `handle_preset_del` always sends after a
delete. -/
def presetDelReply (name : String) : String :=
  "🗑 Пресет '" ++ pyEscape name ++ "' удалён."

/-- The usage hint sent when the command has no argument. -/
def presetDelUsage : String := "Использование: /preset_del имя"

/-- Embedding of `handle_preset_del`: unpack `_, name =
message.text.split(maxsplit=1)` (a failed unpack replies with the usage
hint), then `delete_preset_db`, `log_query` and the confirmation reply.
Returns the new presets and queries tables and the reply text. -/
def handle_preset_del (presets : PresetsDB) (queries : QueriesDB)
    (user_id : Int) (text ts : String) : PresetsDB × QueriesDB × String :=
  match splitMax1 text with
  | [_, name] =>
    let presets' := delete_preset_db presets user_id name
    let queries' := (log_query queries user_id ("/preset_del " ++ name) "command"
      "\x7b\x7d" ts).2
    (presets', queries', presetDelReply name)
  | _ => (presets, queries, presetDelUsage)

/-! ## Report engine (`ensure_demo_csv`, `load_csv_safe`,
`generate_report_from_demo`) -/

/-- A parsed row of `demo.csv`; a `none` cell is a missing value (pandas
`NaN`).  The salary column is numeric after `astype(float)`; exact rationals
stand in for the floats, which is lossless for the integral demo salaries. -/
structure Row where
  title : Option String
  city : Option String
  salary : Option ℚ
  skills : Option String
  date : Option String
deriving DecidableEq

/-- A pandas dataframe: the parsed column header plus the rows. -/
structure DataFrame where
  cols : List String
  rows : List Row
deriving DecidableEq

/-- `pd.DataFrame()`, the value returned by the broad `except` branch of
`load_csv_safe`. -/
def emptyDF : DataFrame := ⟨[], []⟩

/-- The three fixed sample rows that `ensure_demo_csv` writes. -/
def demoRows : List Row :=
  [⟨some "Python developer", some "Москва", some 180000, some "Django;SQL;Docker",
      some "2025-09-10"⟩,
   ⟨some "Data analyst", some "Санкт-Петербург", some 160000, some "SQL;Tableau;Python",
      some "2025-09-12"⟩,
   ⟨some "SMM manager", some "Москва", some 120000, some "Content;UGC;Short video",
      some "2025-09-14"⟩]

/-- The dataframe read back from the freshly synthesized `demo.csv`. -/
def demoDF : DataFrame := ⟨["title", "city", "salary", "skills", "date"], demoRows⟩

/-- Python `str.split(sep)` for a one-character separator: splitting the
empty string yields `[""]`. -/
def splitOnChar (sep : Char) : List Char → List (List Char)
  | [] => [[]]
  | c :: rest =>
    match splitOnChar sep rest with
    | [] => if c = sep then [[], []] else [[c]]
    | h :: t => if c = sep then [] :: h :: t else (c :: h) :: t

/-- `s.split(";")` over strings. -/
def pySplit (s : String) (sep : Char) : List String :=
  (splitOnChar sep s.data).map String.mk

/-- The unique values of a list in order of first appearance. -/
def firstAppearance (l : List String) : List String :=
  l.foldl (fun acc x => if acc.contains x then acc else acc ++ [x]) []

/-- `pandas.Series.value_counts()`: occurrence counts sorted by count
descending, ties kept in first-appearance order (the stable sort of the small
demo series). -/
def valueCounts (l : List String) : List (String × Nat) :=
  sortGt (fun a b => decide (b.2 < a.2)) ((firstAppearance l).map (fun x => (x, l.count x)))

/-- Python `round()` on an exact rational: nearest integer, ties to even. -/
def pyRound (q : ℚ) : ℤ :=
  let f := ⌊q⌋
  let r := q - f
  if r < 1 / 2 then f
  else if 1 / 2 < r then f + 1
  else if f % 2 = 0 then f else f + 1

/-- Digit grouping of Python's format spec `,` on the reversed digit list. -/
def commaGroup : List Char → List Char
  | a :: b :: c :: d :: rest => a :: b :: c :: ',' :: commaGroup (d :: rest)
  | l => l

/-- Python `f"{n:,}"` for an integer. -/
def commaFormat (n : ℤ) : String :=
  let digits := (Nat.toDigits 10 n.natAbs).reverse
  let s : String := ⟨(commaGroup digits).reverse⟩
  if n < 0 then "-" ++ s else s

/-- `df["salary"].astype(float).mean()`: pandas skips missing values; the
mean of an all-missing column is `NaN`, here `none`. -/
def salaryMean (df : DataFrame) : Option ℚ :=
  let vals := df.rows.filterMap Row.salary
  if vals.isEmpty then none else some (vals.sum / (vals.length : ℚ))

/-- The fixed message of `generate_report_from_demo` for an empty or broken
dataframe. -/
def dataUnavailableMsg : String := "⚠️ Данные отсутствуют или CSV некорректен."

/-- Contribution of the `avg_salary` section to `parts` (empty when the
column is absent or the mean is `NaN`). -/
def salaryPart (df : DataFrame) : List String :=
  match (if df.cols.contains "salary" then salaryMean df else none) with
  | some avg => ["💰 Средняя зарплата: <b>" ++ commaFormat (pyRound avg) ++ " ₽</b>"]
  | none => []

/-- Contribution of the `top_cities` section to `parts`. -/
def citiesPart (df : DataFrame) : List String :=
  match (if df.cols.contains "city" then
      some ((valueCounts (df.rows.filterMap Row.city)).take 5)
    else none) with
  | some cs =>
    if cs.isEmpty then []
    else ["🏙️ Топ городов: " ++ ", ".intercalate (cs.map (fun p => pyEscape p.1))]
  | none => []

/-- Contribution of the `top_titles` section to `parts`. -/
def titlesPart (df : DataFrame) : List String :=
  match (if df.cols.contains "title" then
      some ((valueCounts (df.rows.filterMap Row.title)).take 5)
    else none) with
  | some ts =>
    if ts.isEmpty then []
    else ["💼 Топ вакансий: " ++ ", ".intercalate (ts.map (fun p => pyEscape p.1))]
  | none => []

/-- Contribution of the `skills_series` section to `parts`: all non-null
skills cells joined with `;`, split on `;`, counted, top 10. -/
def skillsPart (df : DataFrame) : List String :=
  match (if df.cols.contains "skills" then
      some ((valueCounts
        (pySplit (";".intercalate (df.rows.filterMap Row.skills)) ';')).take 10)
    else none) with
  | some sk =>
    if sk.isEmpty then []
    else ["🔥 Частые навыки: " ++ ", ".intercalate (sk.map (fun p => pyEscape p.1))]
  | none => []

/-- The lines of the report, as `generate_report_from_demo` accumulates them
in `parts` for a nonempty dataframe. -/
def reportParts (df : DataFrame) : List String :=
  ["<b>📊 Аналитический отчёт (demo.csv)</b>"] ++
    salaryPart df ++ citiesPart df ++ titlesPart df ++ skillsPart df ++
    ["\n⚠️ Это демонстрационный отчёт. Ответ составлен ботом-ассистентом."]

/-- What one `pd.read_csv` attempt can do: produce a dataframe, raise
`UnicodeDecodeError`, or raise some other exception. -/
inductive ReadOutcome where
  | ok (df : DataFrame)
  | decodeError
  | otherError (msg : String)
deriving DecidableEq

/-- The two encodings `load_csv_safe` tries. -/
inductive Enc where
  | utf8
  | cp1251
deriving DecidableEq

/-- A raised Python exception that escapes a function. -/
inductive PyErr where
  | unicodeDecodeError
  | otherException (msg : String)
  | runtimeError (msg : String)
  | httpStatusError (code : Nat)
deriving DecidableEq

/-- Embedding of `load_csv_safe` over an abstract reader: the utf-8 attempt's
`UnicodeDecodeError` triggers the cp1251 retry, its other exceptions hit the
broad `except` returning `pd.DataFrame()`; an exception raised inside the
`except UnicodeDecodeError` handler is caught by neither clause and
propagates. -/
def load_csv_safe (read : Enc → ReadOutcome) : Except PyErr DataFrame :=
  match read .utf8 with
  | .ok df => .ok df
  | .otherError _ => .ok emptyDF
  | .decodeError =>
    match read .cp1251 with
    | .ok df => .ok df
    | .decodeError => .error .unicodeDecodeError
    | .otherError m => .error (.otherException m)

/-- Embedding of `generate_report_from_demo`: load (letting any exception
propagate), answer the fixed message for an empty dataframe, else render the
report.  The aggregation itself is total here, so the source's inner
`try/except` fallback line is unreachable in the model. -/
def generate_report_from_demo (read : Enc → ReadOutcome) : Except PyErr String :=
  match load_csv_safe read with
  | .error e => .error e
  | .ok df =>
    if df.rows.isEmpty then .ok dataUnavailableMsg
    else .ok ("\n".intercalate (reportParts df))

/-- A reader for the fresh-install state: both encodings decode the demo CSV
that `ensure_demo_csv` just wrote. -/
def demoReader : Enc → ReadOutcome := fun _ => .ok demoDF

/-! ## External service adapters (`ask_neuron`, `get_news`) -/

/-- A JSON value, for the parsed response bodies. -/
inductive Json where
  | null
  | str (s : String)
  | num (n : Int)
  | arr (items : List Json)
  | obj (fields : List (String × Json))

/-- Dictionary access `j.get(k)` / `j[k]` on an object. -/
def Json.get? : Json → String → Option Json
  | .obj fs, k => (fs.find? (fun p => p.1 == k)).map Prod.snd
  | _, _ => none

/-- List indexing `j[i]` on an array. -/
def Json.index? : Json → Nat → Option Json
  | .arr l, i => l.get? i
  | _, _ => none

mutual

/-- An abstract rendering of Python `str(j)`, for the raw-response fallback
of `ask_neuron`. -/
def Json.dump : Json → String
  | .null => "None"
  | .str s => "'" ++ s ++ "'"
  | .num n => toString n
  | .arr l => "[" ++ Json.dumpItems l ++ "]"
  | .obj fs => "\x7b" ++ Json.dumpFields fs ++ "\x7d"

/-- Comma-joined renderings of the items of a JSON array. -/
def Json.dumpItems : List Json → String
  | [] => ""
  | [j] => j.dump
  | j :: rest => j.dump ++ ", " ++ Json.dumpItems rest

/-- Comma-joined `'key': value` renderings of the fields of a JSON object. -/
def Json.dumpFields : List (String × Json) → String
  | [] => ""
  | [(k, v)] => "'" ++ k ++ "': " ++ v.dump
  | (k, v) :: rest => "'" ++ k ++ "': " ++ v.dump ++ ", " ++ Json.dumpFields rest

end

/-- Python truthiness of a JSON value, for the `j.get("text") or str(j)`
fallback. -/
def Json.truthy : Json → Bool
  | .null => false
  | .str s => !(s == "")
  | .num n => !(n == 0)
  | .arr l => !l.isEmpty
  | .obj fs => !fs.isEmpty

/-- An HTTP response as `requests` exposes it: a status code and the parsed
JSON body. -/
structure HttpResp where
  status : Nat
  body : Json

/-- An HTTP client: from the request payload to a response, or a raised
transport exception.  The URL, headers and query parameters are fixed by the
caller and folded into the function. -/
def HttpClient : Type := Json → Except PyErr HttpResp

/-- The `j["choices"][0]["message"]["content"]` probe with its fallbacks, the
tail of `ask_neuron`. -/
def extractAnswer (j : Json) : String :=
  match (((j.get? "choices").bind (fun c => c.index? 0)).bind
      (fun c => c.get? "message")).bind (fun m => m.get? "content") with
  | some (.str s) => s
  | some v => v.dump
  | none =>
    match j.get? "text" with
    | some v => if v.truthy then (match v with | .str s => s | _ => v.dump) else j.dump
    | none => j.dump

/-- The request payload `ask_neuron` posts. -/
def askPayload (question : String) : Json :=
  .obj [("model", .str "gpt-4.1-mini"),
        ("messages", .arr [.obj [("role", .str "user"), ("content", .str question)]]),
        ("max_tokens", .num 800)]

/-- Embedding of `ask_neuron`: raise `RuntimeError` when the key is absent,
otherwise POST, `raise_for_status()`, and extract the answer text. -/
def ask_neuron (apiKey : Option String) (http : HttpClient) (question : String) :
    Except PyErr String :=
  match apiKey with
  | none => .error (.runtimeError "OPENROUTER_API_KEY not set")
  | some _ =>
    match http (askPayload question) with
    | .error e => .error e
    | .ok r =>
      if 400 ≤ r.status then .error (.httpStatusError r.status)
      else .ok (extractAnswer r.body)

/-- Python `a.get(k) or default` for the string fields of an article: a
missing, null or empty value falls back to the default. -/
def pyGetOr (a : Json) (k : String) (dflt : String) : String :=
  match a.get? k with
  | some (.str s) => if s == "" then dflt else s
  | _ => dflt

/-- One line of the `get_news` result: escaped title, newline, escaped URL. -/
def renderNewsLine (title url : String) : String :=
  pyEscape title ++ "\n" ++ pyEscape url

/-- The line `get_news` builds for one article object. -/
def newsLineOfArticle (a : Json) : String :=
  renderNewsLine (pyGetOr a "title" "Без заголовка") (pyGetOr a "url" "")

/-- A news HTTP client: from the topic query value to a response or a raised
transport exception (the other query parameters are fixed). -/
def NewsClient : Type := String → Except PyErr HttpResp

/-- Embedding of `get_news`: raise `RuntimeError` when the key is absent,
otherwise GET, `raise_for_status()`, read `j.get("articles", [])` and render
each article line. -/
def get_news (apiKey : Option String) (http : NewsClient) (topic : String) :
    Except PyErr (List String) :=
  match apiKey with
  | none => .error (.runtimeError "NEWS_API_KEY not set")
  | some _ =>
    match http topic with
    | .error e => .error e
    | .ok r =>
      if 400 ≤ r.status then .error (.httpStatusError r.status)
      else
        let articles := match r.body.get? "articles" with
          | some (.arr l) => l
          | _ => []
        .ok (articles.map newsLineOfArticle)

/-- The text `handle_ask` sends with `parse_mode="HTML"` on success:
`escape(answer)`. -/
def askOutgoingText (answer : String) : String := pyEscape answer

/-! ## Claims -/

theorem salaryMean_demo : salaryMean demoDF = some (460000 / 3) := by
  rw [salaryMean]
  simp only [demoDF, demoRows, List.filterMap_cons, List.filterMap_nil]
  norm_num

theorem pyRound_demo : pyRound (460000 / 3 : ℚ) = 153333 := by
  have hf : ⌊(460000 / 3 : ℚ)⌋ = 153333 := by norm_num
  have hcond : (460000 / 3 : ℚ) - ((153333 : ℤ) : ℚ) < 1 / 2 := by norm_num
  simp only [pyRound, hf]
  rw [if_pos hcond]

theorem salaryPart_demo : salaryPart demoDF = ["💰 Средняя зарплата: <b>153,333 ₽</b>"] := by
  rw [salaryPart, if_pos (by decide : demoDF.cols.contains "salary" = true), salaryMean_demo]
  dsimp only
  rw [pyRound_demo]
  decide

theorem citiesPart_demo :
    citiesPart demoDF = ["🏙️ Топ городов: Москва, Санкт-Петербург"] := by
  decide

theorem titlesPart_demo :
    titlesPart demoDF = ["💼 Топ вакансий: Python developer, Data analyst, SMM manager"] := by
  decide

theorem skillsPart_demo :
    skillsPart demoDF =
      ["🔥 Частые навыки: SQL, Django, Docker, Tableau, Python, Content, UGC, Short video"] := by
  decide

theorem reportParts_demo :
    reportParts demoDF =
      ["<b>📊 Аналитический отчёт (demo.csv)</b>",
       "💰 Средняя зарплата: <b>153,333 ₽</b>",
       "🏙️ Топ городов: Москва, Санкт-Петербург",
       "💼 Топ вакансий: Python developer, Data analyst, SMM manager",
       "🔥 Частые навыки: SQL, Django, Docker, Tableau, Python, Content, UGC, Short video",
       "\n⚠️ Это демонстрационный отчёт. Ответ составлен ботом-ассистентом."] := by
  rw [reportParts, salaryPart_demo, citiesPart_demo, titlesPart_demo, skillsPart_demo]
  rfl

/-- C1: on the default synthesized dataset (the 3 sample rows of
`ensure_demo_csv`), `generate_report_from_demo` succeeds; its salary line
carries the mean `(180000+160000+120000)/3`, rounded to `153333` and
formatted `153,333`; the top-cities line lists `Москва` (2 occurrences)
before `Санкт-Петербург` (1); and the skills line comes from joining the
non-null skills cells with `;`, splitting on `;`, and counting token
frequency across all rows. -/
theorem c1_report_on_demo_dataset :
    generate_report_from_demo demoReader =
      .ok ("\n".intercalate (reportParts demoDF)) ∧
    salaryMean demoDF = some (460000 / 3) ∧
    pyRound (460000 / 3 : ℚ) = 153333 ∧
    commaFormat 153333 = "153,333" ∧
    (reportParts demoDF).get? 1 = some "💰 Средняя зарплата: <b>153,333 ₽</b>" ∧
    (reportParts demoDF).get? 2 = some "🏙️ Топ городов: Москва, Санкт-Петербург" ∧
    (demoRows.filterMap Row.city).count "Москва" = 2 ∧
    (demoRows.filterMap Row.city).count "Санкт-Петербург" = 1 ∧
    (reportParts demoDF).get? 4 =
      some ("🔥 Частые навыки: " ++ ", ".intercalate
        (((valueCounts (pySplit (";".intercalate (demoRows.filterMap Row.skills)) ';')).take
            10).map (fun p => pyEscape p.1))) ∧
    (reportParts demoDF).get? 4 =
      some "🔥 Частые навыки: SQL, Django, Docker, Tableau, Python, Content, UGC, Short video" ∧
    (pySplit (";".intercalate (demoRows.filterMap Row.skills)) ';').count "SQL" = 2 := by
  refine ⟨rfl, salaryMean_demo, pyRound_demo, by decide, ?_, ?_, by decide, by decide,
    ?_, ?_, by decide⟩ <;> rw [reportParts_demo] <;> decide

/-- A pre-existing `users` table that misses exactly one column of the
specified target set, namely `username`. -/
def c2cxTable : Table :=
  ⟨["user_id", "fullname", "reg_date"], [[some "7", some "Иван", some "2024-01-01"]]⟩

/-- A database state whose `users` table is `c2cxTable`. -/
def c2cxSchema : Schema :=
  ⟨some c2cxTable, some (createTable queriesCreateCols), some (createTable presetsCreateCols)⟩

/-- C2 counterexample: a pre-existing `users` table missing exactly the
target column `username` comes out of `ensure_tables_and_columns` still
without `username` — the migration does not add every missing target
column. -/
theorem c2_counterexample_username_not_added :
    "username" ∈ usersCreateCols ∧
    schemaUsersCols (ensure_tables_and_columns c2cxSchema) =
      ["user_id", "fullname", "reg_date"] ∧
    "username" ∉ schemaUsersCols (ensure_tables_and_columns c2cxSchema) := by
  decide

/-- C2 (amended): `ensure_tables_and_columns` is idempotent, and a
pre-existing `users` table missing exactly one of the columns the code
actually checks (here `fullname`; the checked sets are users:
`fullname`/`reg_date`, queries: `source`/`params`/`ts`, presets:
`content`/`created_at`) gains exactly that column, appended with NULL cells,
with every existing row's data unchanged.  Columns outside the checked sets
(such as `username`) are not added. -/
theorem c2_amended_idempotent_and_adds_checked_column (s : Schema) (t : Table)
    (hm : "fullname" ∉ t.cols) (hr : "reg_date" ∈ t.cols)
    (hwf : ∀ r ∈ t.rows, r.length = t.cols.length) :
    ensure_tables_and_columns (ensure_tables_and_columns s) = ensure_tables_and_columns s ∧
    (ensure_tables_and_columns ⟨some t, s.queries, s.presets⟩).users =
      some ⟨t.cols ++ ["fullname"], t.rows.map (fun r => r ++ [none])⟩ ∧
    ((ensure_tables_and_columns ⟨some t, s.queries, s.presets⟩).users.map
        (fun t' => t'.rows.map (fun r => r.take t.cols.length))) = some t.rows := by
  have key := ensureCols_users_missing_fullname t hm hr
  refine ⟨ensure_tables_idempotent s, ?_, ?_⟩
  · simp only [ensure_tables_and_columns, ensureOne]
    exact congrArg some key
  · simp only [ensure_tables_and_columns, ensureOne, key, Option.map_some]
    refine congrArg some ?_
    dsimp only
    rw [List.map_map]
    have hid : ∀ r ∈ t.rows,
        ((fun r => r.take t.cols.length) ∘ fun r => r ++ [(none : Option String)]) r = id r := by
      intro r hr
      simp only [Function.comp_apply, id_eq, ← hwf r hr]
      exact List.take_left' rfl
    rw [List.map_congr_left hid, List.map_id]

/-- A pre-existing `users` table missing exactly the checked column
`fullname`, for the amended C2 witness. -/
def c2wTable : Table := ⟨["user_id", "username", "reg_date"], [[some "1", some "u", some "d"]]⟩

/-- The starting schema of the amended C2 witness. -/
def c2wSchema : Schema := ⟨none, none, none⟩

theorem c2_amended_witness :
    ("fullname" ∉ c2wTable.cols ∧ "reg_date" ∈ c2wTable.cols ∧
      ∀ r ∈ c2wTable.rows, r.length = c2wTable.cols.length) ∧
    (ensure_tables_and_columns (ensure_tables_and_columns c2wSchema) =
        ensure_tables_and_columns c2wSchema ∧
      (ensure_tables_and_columns ⟨some c2wTable, c2wSchema.queries, c2wSchema.presets⟩).users =
        some ⟨c2wTable.cols ++ ["fullname"], c2wTable.rows.map (fun r => r ++ [none])⟩ ∧
      ((ensure_tables_and_columns ⟨some c2wTable, c2wSchema.queries,
            c2wSchema.presets⟩).users.map
          (fun t' => t'.rows.map (fun r => r.take c2wTable.cols.length))) =
        some c2wTable.rows) :=
  ⟨⟨by decide, by decide, by decide⟩,
    c2_amended_idempotent_and_adds_checked_column c2wSchema c2wTable
      (by decide) (by decide) (by decide)⟩

theorem ensureOne_checked_present (t : Option Table) (createCols checked : List String)
    (hsub : ∀ c ∈ checked, c ∈ createCols) :
    ∀ c ∈ checked, c ∈ (ensureOne t createCols checked).cols := by
  intro c hc
  cases t with
  | none => exact hsub c hc
  | some t => exact mem_ensureCols_of_checked t checked c hc

/-- A pre-existing `queries` table that misses exactly the target column
`text`. -/
def c3cxTable : Table := ⟨["id", "user_id", "source", "params", "ts"], []⟩

/-- A database state whose `queries` table is `c3cxTable`. -/
def c3cxSchema : Schema :=
  ⟨some (createTable usersCreateCols), some c3cxTable, some (createTable presetsCreateCols)⟩

/-- C3 counterexample: a pre-existing `queries` table missing the target
column `text` still lacks `text` after `ensure_tables_and_columns` — the
migration does not check every column of the target set. -/
theorem c3_counterexample_text_not_added :
    "text" ∈ queriesCreateCols ∧
    schemaQueriesCols (ensure_tables_and_columns c3cxSchema) =
      ["id", "user_id", "source", "params", "ts"] ∧
    "text" ∉ schemaQueriesCols (ensure_tables_and_columns c3cxSchema) := by
  decide

/-- C3 (amended): for every starting database state,
`ensure_tables_and_columns` leaves each table containing every column of the
set the code actually checks — users: `fullname`, `reg_date`; queries:
`source`, `params`, `ts`; presets: `content`, `created_at` — whether the
table pre-existed or was just created.  Columns of the specified full target
sets outside these checked sets are not guaranteed (see the
counterexample). -/
theorem c3_amended_checked_columns_present (s : Schema) :
    (∀ c ∈ usersCheckedCols, c ∈ schemaUsersCols (ensure_tables_and_columns s)) ∧
    (∀ c ∈ queriesCheckedCols, c ∈ schemaQueriesCols (ensure_tables_and_columns s)) ∧
    (∀ c ∈ presetsCheckedCols, c ∈ schemaPresetsCols (ensure_tables_and_columns s)) := by
  refine ⟨fun c hc => ?_, fun c hc => ?_, fun c hc => ?_⟩
  · have := ensureOne_checked_present s.users usersCreateCols usersCheckedCols
      (by decide) c hc
    simpa [schemaUsersCols, ensure_tables_and_columns] using this
  · have := ensureOne_checked_present s.queries queriesCreateCols queriesCheckedCols
      (by decide) c hc
    simpa [schemaQueriesCols, ensure_tables_and_columns] using this
  · have := ensureOne_checked_present s.presets presetsCreateCols presetsCheckedCols
      (by decide) c hc
    simpa [schemaPresetsCols, ensure_tables_and_columns] using this

theorem c3_amended_witness :
    "fullname" ∈ usersCheckedCols ∧
    "fullname" ∈ schemaUsersCols (ensure_tables_and_columns ⟨none, none, none⟩) :=
  ⟨by decide,
    (c3_amended_checked_columns_present ⟨none, none, none⟩).1 "fullname" (by decide)⟩

/-- A reader whose primary utf-8 attempt raises `UnicodeDecodeError` and
whose cp1251 retry raises a further exception. -/
def badReader : Enc → ReadOutcome := fun e =>
  match e with
  | .utf8 => .decodeError
  | .cp1251 => .otherError "read failed"

/-- C4 counterexample: when the utf-8 read fails with a decode error and the
cp1251 retry itself fails, `generate_report_from_demo` propagates the
exception instead of returning the fixed data-unavailable message. -/
theorem c4_counterexample_retry_failure_propagates :
    generate_report_from_demo badReader = .error (.otherException "read failed") ∧
    ∀ msg, generate_report_from_demo badReader ≠ .ok msg :=
  ⟨rfl, fun _ h => Except.noConfusion h⟩

/-- C4 (amended): `generate_report_from_demo` returns the fixed
data-unavailable message on a zero-row load (through either encoding) and on
a primary-read failure other than a decode error; but when the primary
decode fails and the secondary cp1251 retry also fails, the exception
propagates out instead. -/
theorem c4_amended_report_error_paths (read : Enc → ReadOutcome) :
    (∀ df, read .utf8 = .ok df → df.rows.isEmpty = true →
      generate_report_from_demo read = .ok dataUnavailableMsg) ∧
    (∀ m, read .utf8 = .otherError m →
      generate_report_from_demo read = .ok dataUnavailableMsg) ∧
    (∀ df, read .utf8 = .decodeError → read .cp1251 = .ok df → df.rows.isEmpty = true →
      generate_report_from_demo read = .ok dataUnavailableMsg) ∧
    (read .utf8 = .decodeError → read .cp1251 = .decodeError →
      generate_report_from_demo read = .error .unicodeDecodeError) ∧
    (∀ m, read .utf8 = .decodeError → read .cp1251 = .otherError m →
      generate_report_from_demo read = .error (.otherException m)) := by
  refine ⟨fun df h1 h2 => ?_, fun m h1 => ?_, fun df h1 h2 h3 => ?_,
    fun h1 h2 => ?_, fun m h1 h2 => ?_⟩
  · simp [generate_report_from_demo, load_csv_safe, h1, h2]
  · simp [generate_report_from_demo, load_csv_safe, h1, emptyDF]
  · simp [generate_report_from_demo, load_csv_safe, h1, h2, h3]
  · simp [generate_report_from_demo, load_csv_safe, h1, h2]
  · simp [generate_report_from_demo, load_csv_safe, h1, h2]

/-- A reader that parses an empty dataframe. -/
def emptyOkReader : Enc → ReadOutcome := fun _ => .ok ⟨["title"], []⟩

/-- A reader whose utf-8 attempt raises a non-decode exception. -/
def utf8FailReader : Enc → ReadOutcome := fun _ => .otherError "boom"

/-- A reader for which both encodings raise `UnicodeDecodeError`. -/
def doubleDecodeReader : Enc → ReadOutcome := fun _ => .decodeError

theorem c4_amended_witness :
    generate_report_from_demo emptyOkReader = .ok dataUnavailableMsg ∧
    generate_report_from_demo utf8FailReader = .ok dataUnavailableMsg ∧
    generate_report_from_demo doubleDecodeReader = .error .unicodeDecodeError :=
  ⟨(c4_amended_report_error_paths emptyOkReader).1 ⟨["title"], []⟩ rfl rfl,
   (c4_amended_report_error_paths utf8FailReader).2.1 "boom" rfl,
   (c4_amended_report_error_paths doubleDecodeReader).2.2.2.1 rfl rfl⟩

/-- C5: for every well-formed starting table, logging N queries for a user
appends N fresh rows (never updating or overwriting existing ones), and
`list_history` with limit N then returns exactly those N `(text, ts)` pairs,
most recent first. -/
theorem c5_log_query_always_inserts_and_history_order (db : QueriesDB) (user_id : Int)
    (es : List QEntry) (hinv : queriesInv db) :
    (logMany db user_id es).rows.length = db.rows.length + es.length ∧
    (logMany db user_id es).rows.take db.rows.length = db.rows ∧
    list_history (logMany db user_id es) user_id es.length =
      (es.map (fun e => (e.text, e.ts))).reverse := by
  refine ⟨?_, ?_, list_history_after_logMany db user_id es hinv⟩
  · rw [logMany_eq]
    simp [mkRows_length]
  · rw [logMany_eq]
    exact List.take_left' rfl

/-- The starting queries table of the C5 witness. -/
def c5db : QueriesDB := ⟨1, []⟩

/-- The two logged entries of the C5 witness. -/
def c5es : List QEntry :=
  [⟨"a", "user", "\x7b\x7d", "2025-01-01 00:00:00"⟩,
   ⟨"b", "ask", "\x7b\x7d", "2025-01-01 00:00:01"⟩]

theorem c5_witness :
    queriesInv c5db ∧
    ((logMany c5db 42 c5es).rows.length = c5db.rows.length + c5es.length ∧
     (logMany c5db 42 c5es).rows.take c5db.rows.length = c5db.rows ∧
     list_history (logMany c5db 42 c5es) 42 c5es.length =
       (c5es.map (fun e => (e.text, e.ts))).reverse) :=
  have h : queriesInv c5db := ⟨List.Pairwise.nil, by simp [c5db]⟩
  ⟨h, c5_log_query_always_inserts_and_history_order c5db 42 c5es h⟩

/-- C6: for a user not yet registered, the first `register_user` call leaves
exactly one row for that user id — carrying its username, joined fullname and
that call's registration date — and a second call with the same id changes
nothing at all. -/
theorem c6_register_user_second_call_noop (db : List UserRow) (u : TgUser)
    (t1 t2 : String) (h : ∀ r ∈ db, r.user_id ≠ u.id) :
    register_user (register_user db u t1) u t2 = register_user db u t1 ∧
    (register_user db u t1).filter (fun r => r.user_id == u.id) =
      [⟨u.id, u.username, pyJoinNonEmpty [u.first_name, u.last_name], t1⟩] := by
  have h1 : register_user db u t1 =
      db ++ [⟨u.id, u.username, pyJoinNonEmpty [u.first_name, u.last_name], t1⟩] := by
    rw [register_user, if_neg]
    simp only [List.any_eq_true, not_exists, not_and]
    intro r hr
    simp [h r hr]
  constructor
  · rw [h1, register_user, if_pos]
    simp
  · rw [h1, List.filter_append]
    have hdb : db.filter (fun r => r.user_id == u.id) = [] := by
      rw [List.filter_eq_nil_iff]
      intro r hr
      simp [h r hr]
    rw [hdb]
    simp

/-- The starting users table of the C6 witness. -/
def c6db : List UserRow := [⟨7, some "w", "W", "2024-05-05"⟩]

/-- The registering user of the C6 witness. -/
def c6user : TgUser := ⟨42, some "ivan", some "Иван", some "Петров"⟩

theorem c6_witness :
    (∀ r ∈ c6db, r.user_id ≠ c6user.id) ∧
    (register_user (register_user c6db c6user "t1") c6user "t2" =
        register_user c6db c6user "t1" ∧
      (register_user c6db c6user "t1").filter (fun r => r.user_id == c6user.id) =
        [⟨c6user.id, c6user.username,
          pyJoinNonEmpty [c6user.first_name, c6user.last_name], "t1"⟩]) :=
  ⟨by decide, c6_register_user_second_call_noop c6db c6user "t1" "t2" (by decide)⟩

/-- C7: after two `add_preset_db` calls with the same user and name,
`delete_preset_db` leaves no row matching that `(user_id, name)` pair — both
duplicates go — and the surviving rows are exactly the original rows that did
not match, so other users' and other names' rows are untouched. -/
theorem c7_delete_preset_removes_all_matching (db : PresetsDB) (u : Int)
    (name c1 c2 ts1 ts2 : String) :
    ((delete_preset_db (add_preset_db (add_preset_db db u name c1 ts1) u name c2 ts2)
        u name).rows.filter (fun r => presetMatches u name r)) = [] ∧
    (delete_preset_db (add_preset_db (add_preset_db db u name c1 ts1) u name c2 ts2)
        u name).rows = db.rows.filter (fun r => !(presetMatches u name r)) := by
  constructor
  · simp only [delete_preset_db, List.filter_filter]
    have hz : ∀ r : PresetRow, (presetMatches u name r && !(presetMatches u name r)) = false := by
      intro r
      cases presetMatches u name r <;> rfl
    simp [hz]
  · simp [delete_preset_db, add_preset_db, List.filter_append, presetMatches]

/-- C8: with no configured credential, `ask_neuron` and `get_news` fail at
once with the `RuntimeError` that realizes the spec's `ConfigError`, and the
result does not depend on the HTTP client at all — no network request is
made. -/
theorem c8_adapters_fail_fast_without_credential (http1 http2 : HttpClient)
    (n1 n2 : NewsClient) (q topic : String) :
    ask_neuron none http1 q = .error (.runtimeError "OPENROUTER_API_KEY not set") ∧
    ask_neuron none http1 q = ask_neuron none http2 q ∧
    get_news none n1 topic = .error (.runtimeError "NEWS_API_KEY not set") ∧
    get_news none n1 topic = get_news none n2 topic :=
  ⟨rfl, rfl, rfl, rfl⟩

theorem noUnescaped_renderNewsLine (title url : String) :
    noUnescaped (renderNewsLine title url).data = true := by
  have h2 : noUnescaped ('\n' :: (pyEscape url).data) = true := by
    rw [noUnescaped_cons_safe _ _ (by decide) (by decide) (by decide)]
    exact noUnescaped_pyEscape url
  have h3 := noUnescaped_escape_append title.data ('\n' :: (pyEscape url).data) h2
  have hdata : (renderNewsLine title url).data =
      (title.data.flatMap escapeChar ++ ['\n']) ++ (pyEscape url).data := rfl
  rw [hdata, List.append_assoc]
  exact h3

/-- C9: every user- or external-supplied string that the `/ask` and `/news`
handlers include in an outgoing HTML-mode message — in particular one
containing `<`, `>` or `&` — passes through `html.escape`, so the outgoing
text never carries those characters unescaped: no raw `<` or `>` remains and
every `&` begins an escape entity. -/
theorem c9_outgoing_html_is_escaped (s title url : String)
    (h : '<' ∈ s.data ∨ '>' ∈ s.data ∨ '&' ∈ s.data) :
    noUnescaped (askOutgoingText s).data = true ∧
    noUnescaped (renderNewsLine title url).data = true ∧
    ∀ a : Json, noUnescaped (newsLineOfArticle a).data = true :=
  ⟨noUnescaped_pyEscape s, noUnescaped_renderNewsLine title url,
    fun a => noUnescaped_renderNewsLine _ _⟩

theorem c9_witness :
    ('<' ∈ "<b>R&D</b>".data ∨ '>' ∈ "<b>R&D</b>".data ∨ '&' ∈ "<b>R&D</b>".data) ∧
    noUnescaped (askOutgoingText "<b>R&D</b>").data = true ∧
    noUnescaped (renderNewsLine "a<b" "https://e.x/?a=1&b=2").data = true ∧
    noUnescaped (newsLineOfArticle (Json.obj
      [("title", Json.str "R&D <news>"), ("url", Json.str "https://e.x/?a=1&b=2")])).data =
        true :=
  have h := c9_outgoing_html_is_escaped "<b>R&D</b>" "a<b" "https://e.x/?a=1&b=2"
    (Or.inl (by decide))
  ⟨Or.inl (by decide), h.1, h.2.1,
    h.2.2 (Json.obj [("title", Json.str "R&D <news>"), ("url", Json.str "https://e.x/?a=1&b=2")])⟩

/-- C10: deleting a preset name with no matching rows is accepted: the
handler leaves the presets table unchanged, still logs the query, and replies
with exactly the deletion-confirmation text `presetDelReply name` — the one
and only reply of the delete branch, so it matches a successful delete
(there is no not-found branch). -/
theorem c10_preset_del_nonexistent_name (presets : PresetsDB) (queries : QueriesDB)
    (user_id : Int) (text ts name : String)
    (hparse : splitMax1 text = ["/preset_del", name])
    (hnone : ∀ r ∈ presets.rows, presetMatches user_id name r = false) :
    handle_preset_del presets queries user_id text ts =
      (presets,
       ⟨queries.nextId + 1, queries.rows ++
         [⟨queries.nextId, user_id, "/preset_del " ++ name, "command", "\x7b\x7d", ts⟩]⟩,
       presetDelReply name) ∧
    ∀ p' : PresetsDB, (handle_preset_del p' queries user_id text ts).2.2 =
      presetDelReply name := by
  have hdel : delete_preset_db presets user_id name = presets := by
    rw [delete_preset_db]
    have : presets.rows.filter (fun r => !(presetMatches user_id name r)) = presets.rows :=
      List.filter_eq_self.mpr (fun r hr => by rw [hnone r hr]; rfl)
    rw [this]
  constructor
  · rw [handle_preset_del, hparse]
    dsimp only
    rw [hdel]
    rfl
  · intro p'
    rw [handle_preset_del, hparse]

/-- The presets table of the C10 witness: one row of another user. -/
def c10presets : PresetsDB := ⟨5, [⟨1, 99, "x", "other content", "2024-01-01"⟩]⟩

/-- The queries table of the C10 witness. -/
def c10queries : QueriesDB := ⟨3, []⟩

theorem c10_witness :
    splitMax1 "/preset_del x" = ["/preset_del", "x"] ∧
    (∀ r ∈ c10presets.rows, presetMatches 42 "x" r = false) ∧
    (handle_preset_del c10presets c10queries 42 "/preset_del x" "t" =
      (c10presets,
       ⟨c10queries.nextId + 1, c10queries.rows ++
         [⟨c10queries.nextId, 42, "/preset_del " ++ "x", "command", "\x7b\x7d", "t"⟩]⟩,
       presetDelReply "x") ∧
    ∀ p' : PresetsDB, (handle_preset_del p' c10queries 42 "/preset_del x" "t").2.2 =
      presetDelReply "x") :=
  ⟨by decide, by decide,
    c10_preset_del_nonexistent_name c10presets c10queries 42 "/preset_del x" "t" "x"
      (by decide) (by decide)⟩

end Bot
